import Mathlib

/-!
Verification of the show-settlement-calculator repository.

The settlement engine (`handleCalculate` in `src/app/page.tsx`), the
entitlement resolver (`hasProAccess` in the entitlements module), the
Stripe webhook reconciler (`src/app/api/webhooks/stripe/route.ts`) and the
share-link issuer/resolver (`src/app/api/share-links/create/route.ts`,
`src/app/s/[token]/page.tsx`) are embedded shallowly: numeric arithmetic
is modelled over the exact rationals, database tables as lists of rows,
fallible writes as boolean failure flags, and external oracles
(signature verification, randomness) as explicit parameters.
-/

namespace ShowSettlement

/-- The three deal structures of `src/app/page.tsx` (`type DealType`). -/
inductive DealType where
  | guarantee
  | percentage
  | guarantee_vs_percentage
deriving DecidableEq, Repr

/-- Parsed numeric form of the calculator inputs consumed by
`handleCalculate` in `src/app/page.tsx` (after `parseNumber`). -/
structure SettlementInput where
  dealType : DealType
  ticketPrice : ℚ
  ticketsSold : ℚ
  taxRate : ℚ
  totalExpenses : ℚ
  guarantee : ℚ
  percentage : ℚ
deriving DecidableEq, Repr

/-- `CalculationResult` of `src/app/page.tsx`. -/
structure SettlementResult where
  grossRevenue : ℚ
  taxAmount : ℚ
  totalExpenses : ℚ
  netProfit : ℚ
  artistPayout : ℚ
  venuePayout : ℚ
deriving DecidableEq, Repr

/-- `handleCalculate` of `src/app/page.tsx` (lines 253-359): validation
checks in source order, then the settlement formulas; an error message
models `setErrorMessage` + early return, an `ok` models `setResult`. -/
def handleCalculate (i : SettlementInput) : Except String SettlementResult :=
  if i.ticketPrice ≤ 0 ∨ i.ticketsSold ≤ 0 then
    .error "Please enter valid ticket price and tickets sold."
  else if i.dealType = DealType.guarantee ∧ i.guarantee ≤ 0 then
    .error "Please enter a valid guarantee amount."
  else if i.dealType = DealType.percentage ∧ i.percentage ≤ 0 then
    .error "Please enter a valid percentage."
  else if i.dealType = DealType.guarantee_vs_percentage ∧
      (i.guarantee ≤ 0 ∨ i.percentage ≤ 0) then
    .error "Please enter both guarantee amount and percentage."
  else
    let grossRevenue := i.ticketPrice * i.ticketsSold
    let taxAmount := grossRevenue * (i.taxRate / 100)
    let netProfit := grossRevenue - taxAmount - i.totalExpenses
    let artistPayout :=
      match i.dealType with
      | DealType.guarantee => i.guarantee
      | DealType.percentage => max 0 (netProfit * (i.percentage / 100))
      | DealType.guarantee_vs_percentage =>
          max i.guarantee (max 0 (netProfit * (i.percentage / 100)))
    let venuePayout := netProfit - artistPayout
    .ok ⟨grossRevenue, taxAmount, i.totalExpenses, netProfit, artistPayout,
      venuePayout⟩

/-- `parseNumber` of `src/app/page.tsx` (lines 74-77): a field whose
`parseFloat` is `NaN` (modelled `none`) becomes `0`. -/
def parseNumber (value : Option ℚ) : ℚ :=
  value.getD 0

/-- The string-valued form fields of `FormData` in `src/app/page.tsx`,
each numeric field modelled by its `parseFloat` outcome (`none` = NaN). -/
structure FormData where
  dealType : DealType
  ticketPrice : Option ℚ
  ticketsSold : Option ℚ
  taxRate : Option ℚ
  totalExpenses : Option ℚ
  guarantee : Option ℚ
  percentage : Option ℚ
deriving DecidableEq, Repr

/-- `handleCalculate` as invoked on the raw form data: parse every numeric
field with `parseNumber`, then compute (STEP 1 of the source). -/
def handleCalculateForm (fd : FormData) : Except String SettlementResult :=
  handleCalculate
    { dealType := fd.dealType
      ticketPrice := parseNumber fd.ticketPrice
      ticketsSold := parseNumber fd.ticketsSold
      taxRate := parseNumber fd.taxRate
      totalExpenses := parseNumber fd.totalExpenses
      guarantee := parseNumber fd.guarantee
      percentage := parseNumber fd.percentage }

/-- Modelled from the spec: the result the reference formulas of spec
section 4.1 prescribe for a validated input (second definition of the
refinement claim C1; compare with `handleCalculate`). -/
def specReferenceResult (i : SettlementInput) : SettlementResult :=
  let grossRevenue := i.ticketPrice * i.ticketsSold
  let taxAmount := grossRevenue * (i.taxRate / 100)
  let netProfit := grossRevenue - taxAmount - i.totalExpenses
  let artistPayout :=
    match i.dealType with
    | DealType.guarantee => i.guarantee
    | DealType.percentage => max 0 (netProfit * (i.percentage / 100))
    | DealType.guarantee_vs_percentage =>
        max i.guarantee (max 0 (netProfit * (i.percentage / 100)))
  { grossRevenue := grossRevenue
    taxAmount := taxAmount
    totalExpenses := i.totalExpenses
    netProfit := netProfit
    artistPayout := artistPayout
    venuePayout := netProfit - artistPayout }

/-- Modelled from the spec: the validation contract of spec section 4.1 —
the input passes every check required by its deal type. -/
def specValidationPasses (i : SettlementInput) : Prop :=
  0 < i.ticketPrice ∧ 0 < i.ticketsSold ∧
  (i.dealType = DealType.guarantee → 0 < i.guarantee) ∧
  (i.dealType = DealType.percentage → 0 < i.percentage) ∧
  (i.dealType = DealType.guarantee_vs_percentage →
    0 < i.guarantee ∧ 0 < i.percentage)

instance (i : SettlementInput) : Decidable (specValidationPasses i) := by
  unfold specValidationPasses; infer_instance

/-- Modelled from the spec: the validation order of spec section 4.1,
first failing check wins; `none` means every check passed (second
definition of the refinement claim C2; compare with `handleCalculate`). -/
def specFirstFailingCheck (i : SettlementInput) : Option String :=
  if i.ticketPrice ≤ 0 ∨ i.ticketsSold ≤ 0 then
    some "Please enter valid ticket price and tickets sold."
  else if i.dealType = DealType.guarantee ∧ i.guarantee ≤ 0 then
    some "Please enter a valid guarantee amount."
  else if i.dealType = DealType.percentage ∧ i.percentage ≤ 0 then
    some "Please enter a valid percentage."
  else if i.dealType = DealType.guarantee_vs_percentage ∧
      (i.guarantee ≤ 0 ∨ i.percentage ≤ 0) then
    some "Please enter both guarantee amount and percentage."
  else
    none

/-- The error component of a computation outcome (`some` = the
`ValidationError` message shown, `none` = a result was produced). -/
def errorOf : Except String SettlementResult → Option String
  | .error e => some e
  | .ok _ => none

end ShowSettlement

namespace Entitlements

/-- The `(status, expires_at)` projection of a `user_entitlements` row as
selected by `hasProAccess` (entitlements module); `expiresAt` is an epoch
timestamp, `none` models SQL `null`. -/
structure EntitlementRow where
  status : String
  expiresAt : Option Int
deriving DecidableEq, Repr

/-- `hasProAccess` of the server entitlements module (and the identical
`hasProAccessClient`): `row = none` models the absent-row / query-error
path, `now` the value of `new Date()` at the check. -/
def hasProAccess (row : Option EntitlementRow) (now : Int) : Bool :=
  match row with
  | none => false
  | some data =>
    if data.status ≠ "active" then false
    else
      match data.expiresAt with
      | some t => if t < now then false else true
      | none => true

/-- Modelled from the spec: access iff `status = active ∧ (expiresAt = null
∨ expiresAt > now)` — the claim C3 predicate, strict comparison. -/
def specAccessStrict (row : Option EntitlementRow) (now : Int) : Bool :=
  match row with
  | none => false
  | some data =>
    data.status == "active" &&
      (match data.expiresAt with
       | none => true
       | some t => decide (now < t))

/-- Modelled from the spec, amended: access iff `status = active ∧
(expiresAt = null ∨ expiresAt ≥ now)` — non-strict comparison, matching
the source's `new Date(expires_at) < new Date()` rejection test. -/
def specAccessNonStrict (row : Option EntitlementRow) (now : Int) : Bool :=
  match row with
  | none => false
  | some data =>
    data.status == "active" &&
      (match data.expiresAt with
       | none => true
       | some t => decide (now ≤ t))

end Entitlements

namespace StripeWebhook

/-- A `user_subscriptions` row as written by the webhook handlers in
`src/app/api/webhooks/stripe/route.ts`. -/
structure SubscriptionRow where
  userId : String
  customerId : String
  subscriptionId : String
  priceId : String
  status : String
  currentPeriodStart : Option Int
  currentPeriodEnd : Option Int
  cancelAtPeriodEnd : Bool
deriving DecidableEq, Repr

/-- A `user_entitlements` row as written by the webhook handlers
(the columns the upsert supplies). -/
structure EntitlementRecord where
  userId : String
  source : String
  status : String
  expiresAt : Option Int
deriving DecidableEq, Repr

/-- The two tables the webhook route writes. -/
structure WebhookState where
  subscriptions : List SubscriptionRow
  entitlements : List EntitlementRecord
deriving DecidableEq, Repr

/-- The fields of a Stripe subscription object the handlers read
(`sub.id`, `sub.customer`, `sub.items.data[0].price.id`, `sub.status`,
period bounds, `sub.cancel_at_period_end`). -/
structure RetrievedSubscription where
  id : String
  customer : String
  priceId : String
  status : String
  currentPeriodStart : Option Int
  currentPeriodEnd : Option Int
  cancelAtPeriodEnd : Bool
deriving DecidableEq, Repr

/-- Whether the database rejects the handler's subscription-table write
and/or its entitlement-table write (a supabase error value, which the
source logs and then continues past). -/
structure WriteFailures where
  subscriptionWrite : Bool
  entitlementWrite : Bool
deriving DecidableEq, Repr

/-- Upsert with `onConflict: "user_id"`: replace the supplied columns of
the row with this `userId`, or append a fresh row. -/
def upsertEntitlement (rows : List EntitlementRecord)
    (row : EntitlementRecord) : List EntitlementRecord :=
  if rows.any (fun r => r.userId == row.userId) then
    rows.map (fun r => if r.userId == row.userId then row else r)
  else
    rows ++ [row]

/-- `handleCheckoutSessionCompleted` (route lines 77-184); returns the new
state and the `console` messages emitted. `sessionSubscriptionId` models
`session.subscription` (`none` = falsy), `metadataUserId` models
`session.metadata?.supabase_user_id`, `sub` the subscription retrieved
from Stripe. -/
def handleCheckoutSessionCompleted (f : WriteFailures)
    (sessionSubscriptionId : Option String) (metadataUserId : Option String)
    (sub : RetrievedSubscription) (s : WebhookState) :
    WebhookState × List String :=
  match sessionSubscriptionId with
  | none => (s, ["No subscription ID in checkout session"])
  | some subscriptionId =>
    match metadataUserId with
    | none => (s, ["No user ID in session metadata"])
    | some userId =>
      match s.subscriptions.find?
          (fun r => r.subscriptionId == subscriptionId) with
      | some _ =>
          (s, ["Subscription already processed, skipping (idempotent)"])
      | none =>
        let step1 : WebhookState × List String :=
          match s.subscriptions.find? (fun r => r.userId == userId) with
          | some _ =>
            if f.subscriptionWrite then (s, ["Error updating subscription"])
            else
              ({ s with subscriptions := s.subscriptions.map (fun r =>
                  if r.userId == userId then
                    { r with
                      customerId := sub.customer
                      subscriptionId := sub.id
                      priceId := sub.priceId
                      status := sub.status
                      currentPeriodStart := sub.currentPeriodStart
                      currentPeriodEnd := sub.currentPeriodEnd
                      cancelAtPeriodEnd := sub.cancelAtPeriodEnd }
                  else r) }, [])
          | none =>
            if f.subscriptionWrite then (s, ["Error creating subscription"])
            else
              ({ s with subscriptions := s.subscriptions ++
                  [{ userId := userId
                     customerId := sub.customer
                     subscriptionId := sub.id
                     priceId := sub.priceId
                     status := sub.status
                     currentPeriodStart := sub.currentPeriodStart
                     currentPeriodEnd := sub.currentPeriodEnd
                     cancelAtPeriodEnd := sub.cancelAtPeriodEnd }] }, [])
        let entitlementStatus :=
          if sub.status == "active" || sub.status == "trialing" then "active"
          else "inactive"
        let step2 : WebhookState × List String :=
          if f.entitlementWrite then
            (step1.1, ["Error syncing entitlement"])
          else
            ({ step1.1 with
                entitlements := upsertEntitlement step1.1.entitlements
                  { userId := userId
                    source := "stripe"
                    status := entitlementStatus
                    expiresAt := sub.currentPeriodEnd } }, [])
        (step2.1, step1.2 ++ step2.2)

/-- `handleSubscriptionUpdated` (route lines 189-249). -/
def handleSubscriptionUpdated (f : WriteFailures)
    (sub : RetrievedSubscription) (s : WebhookState) :
    WebhookState × List String :=
  match s.subscriptions.find? (fun r => r.subscriptionId == sub.id) with
  | none => (s, ["Subscription not found for update, skipping"])
  | some existing =>
    let step1 : WebhookState × List String :=
      if f.subscriptionWrite then (s, ["Error updating subscription"])
      else
        ({ s with subscriptions := s.subscriptions.map (fun r =>
            if r.subscriptionId == sub.id then
              { r with
                status := sub.status
                priceId := sub.priceId
                currentPeriodStart := sub.currentPeriodStart
                currentPeriodEnd := sub.currentPeriodEnd
                cancelAtPeriodEnd := sub.cancelAtPeriodEnd }
            else r) }, [])
    let entitlementStatus :=
      if sub.status == "active" || sub.status == "trialing" then "active"
      else "inactive"
    let step2 : WebhookState × List String :=
      if f.entitlementWrite then
        (step1.1, ["Error syncing entitlement"])
      else
        ({ step1.1 with
            entitlements := upsertEntitlement step1.1.entitlements
              { userId := existing.userId
                source := "stripe"
                status := entitlementStatus
                expiresAt := sub.currentPeriodEnd } }, [])
    (step2.1, step1.2 ++ step2.2)

/-- `handleSubscriptionDeleted` (route lines 254-298): the handler only
reads `subscription.id`. -/
def handleSubscriptionDeleted (f : WriteFailures) (subscriptionId : String)
    (s : WebhookState) : WebhookState × List String :=
  match s.subscriptions.find?
      (fun r => r.subscriptionId == subscriptionId) with
  | none => (s, ["Subscription not found for deletion, skipping"])
  | some existing =>
    if existing.status == "canceled" then
      (s, ["Subscription already canceled, skipping (idempotent)"])
    else
      let step1 : WebhookState × List String :=
        if f.subscriptionWrite then
          (s, ["Error marking subscription as canceled"])
        else
          ({ s with subscriptions := s.subscriptions.map (fun r =>
              if r.subscriptionId == subscriptionId then
                { r with status := "canceled" }
              else r) }, [])
      let step2 : WebhookState × List String :=
        if f.entitlementWrite then
          (step1.1, ["Error syncing entitlement cancellation"])
        else
          ({ step1.1 with
              entitlements := step1.1.entitlements.map (fun e =>
                if e.userId == existing.userId && e.source == "stripe" then
                  { e with status := "inactive" }
                else e) }, [])
      (step2.1, step1.2 ++ step2.2)

/-- `handleInvoicePaymentFailed` (route lines 303-357); `subscriptionId`
models `invoice.subscription` (`none` = falsy). -/
def handleInvoicePaymentFailed (f : WriteFailures)
    (subscriptionId : Option String) (s : WebhookState) :
    WebhookState × List String :=
  match subscriptionId with
  | none => (s, [])
  | some subId =>
    match s.subscriptions.find? (fun r => r.subscriptionId == subId) with
    | none =>
        (s, ["Subscription not found for payment failure update, skipping"])
    | some existing =>
      if existing.status == "past_due" then
        (s, ["Subscription already marked past_due, skipping (idempotent)"])
      else
        let step1 : WebhookState × List String :=
          if f.subscriptionWrite then
            (s, ["Error updating subscription status to past_due"])
          else
            ({ s with subscriptions := s.subscriptions.map (fun r =>
                if r.subscriptionId == subId then
                  { r with status := "past_due" }
                else r) }, [])
        let step2 : WebhookState × List String :=
          if f.entitlementWrite then
            (step1.1, ["Error syncing entitlement for payment failure"])
          else
            ({ step1.1 with
                entitlements := step1.1.entitlements.map (fun e =>
                  if e.userId == existing.userId && e.source == "stripe" then
                    { e with status := "inactive" }
                  else e) }, [])
        (step2.1, step1.2 ++ step2.2)

/-- The parsed Stripe event dispatched by the route's `switch`. -/
inductive StripeEvent where
  | checkoutSessionCompleted (sessionSubscriptionId : Option String)
      (metadataUserId : Option String) (sub : RetrievedSubscription)
  | subscriptionUpdated (sub : RetrievedSubscription)
  | subscriptionDeleted (subscriptionId : String)
  | invoicePaymentFailed (subscriptionId : Option String)
  | other (eventType : String)
deriving DecidableEq, Repr

/-- The `switch (event.type)` dispatch of the route (lines 43-62). -/
def handleEvent (f : WriteFailures) (event : StripeEvent)
    (s : WebhookState) : WebhookState × List String :=
  match event with
  | .checkoutSessionCompleted subId uid sub =>
      handleCheckoutSessionCompleted f subId uid sub s
  | .subscriptionUpdated sub => handleSubscriptionUpdated f sub s
  | .subscriptionDeleted subId => handleSubscriptionDeleted f subId s
  | .invoicePaymentFailed subId => handleInvoicePaymentFailed f subId s
  | .other t => (s, ["Unhandled event type: " ++ t])

/-- An HTTP response of the route: status code and body marker. -/
structure HttpResponse where
  status : Nat
  body : String
deriving DecidableEq, Repr

/-- `POST` of `src/app/api/webhooks/stripe/route.ts`: signature header
(`none` = missing), configured webhook secret, the verification oracle
`verify body signature secret` modelling `stripe.webhooks.constructEvent`
(which on success yields `event`), then the dispatch. Returns the
response, the state after any handler ran, and the log messages. -/
def POST (webhookSecret : Option String)
    (verify : String → String → String → Bool) (body : String)
    (signature : Option String) (event : StripeEvent) (f : WriteFailures)
    (s : WebhookState) : HttpResponse × WebhookState × List String :=
  match signature with
  | none => (⟨400, "No signature provided"⟩, s, [])
  | some sig =>
    match webhookSecret with
    | none =>
        (⟨500, "Webhook secret not configured"⟩, s,
          ["STRIPE_WEBHOOK_SECRET is not set"])
    | some secret =>
      if verify body sig secret then
        let handled := handleEvent f event s
        (⟨200, "received"⟩, handled.1, handled.2)
      else
        (⟨400, "Invalid signature"⟩, s,
          ["Webhook signature verification failed"])

end StripeWebhook

namespace ShareLinks

/-- A `shows` row as consulted by the share-link routes: primary key and
owner; `payload` stands for the persisted `title`/`inputs`/`results`
snapshot rendered by the share page. -/
structure ShowRow where
  id : String
  userId : String
  payload : String
deriving DecidableEq, Repr

/-- A `share_links` row: `{show_id, token, is_active}`. -/
structure ShareLinkRow where
  showId : String
  token : String
  isActive : Bool
deriving DecidableEq, Repr

/-- The tables the share-link routes touch. -/
structure ShareState where
  shows : List ShowRow
  shareLinks : List ShareLinkRow
deriving DecidableEq, Repr

/-- The hexadecimal digit for `n < 16`, lowercase, as produced by node's
`Buffer.toString("hex")`. -/
def hexDigitChar (n : Nat) : Char :=
  if n < 10 then Char.ofNat (48 + n) else Char.ofNat (87 + n)

/-- One byte as two lowercase hex characters. -/
def byteToHex (b : Nat) : List Char :=
  [hexDigitChar (b / 16), hexDigitChar (b % 16)]

/-- `randomBytes(32).toString("hex")`: hex-encode a byte list. -/
def hexEncode (bytes : List Nat) : String :=
  String.mk ((bytes.map byteToHex).flatten)

/-- Whether a character is a lowercase hexadecimal digit. -/
def isHexChar (c : Char) : Bool :=
  (48 ≤ c.toNat && c.toNat ≤ 57) || (97 ≤ c.toNat && c.toNat ≤ 102)

/-- The responses of `POST /api/share-links/create`
(`src/app/api/share-links/create/route.ts`). -/
inductive CreateShareLinkResponse where
  /-- 401 "Authentication required". -/
  | authenticationRequired
  /-- 400 "showId is required". -/
  | showIdRequired
  /-- 404 "Show not found or access denied". -/
  | showNotFound
  /-- 200 `{token, is_active, already_exists: true}`. -/
  | existingLink (token : String) (isActive : Bool)
  /-- 500 "Failed to create share link". -/
  | insertFailed
  /-- 201 `{token, is_active: true, already_exists: false}`. -/
  | created (token : String)
deriving DecidableEq, Repr

/-- `POST` of `src/app/api/share-links/create/route.ts`: `user` is the
authenticated caller (`none` = unauthenticated), `showId` the request
body field, `randomness` the bytes `randomBytes(32)` yields, and
`insertFails` whether the insert returns a database error. -/
def createShareLink (user : Option String) (showId : Option String)
    (randomness : List Nat) (insertFails : Bool) (s : ShareState) :
    CreateShareLinkResponse × ShareState :=
  match user with
  | none => (.authenticationRequired, s)
  | some uid =>
    match showId with
    | none => (.showIdRequired, s)
    | some sid =>
      match s.shows.find? (fun r => r.id == sid && r.userId == uid) with
      | none => (.showNotFound, s)
      | some _ =>
        match s.shareLinks.find? (fun l => l.showId == sid) with
        | some link => (.existingLink link.token link.isActive, s)
        | none =>
          let token := hexEncode randomness
          if insertFails then (.insertFailed, s)
          else
            (.created token,
              { s with shareLinks := s.shareLinks ++
                  [{ showId := sid, token := token, isActive := true }] })

/-- The observable outcome of the public share page: either the rendered
show snapshot or the `notFound()` page. -/
inductive ResolveResult where
  | notFound
  | rendered (showRow : ShowRow)
deriving DecidableEq, Repr

/-- `SharedSettlementPage` of `src/app/s/[token]/page.tsx`: look up the
share link by token with the service role; missing, inactive, or a
dangling show id all render `notFound()`. -/
def SharedSettlementPage (token : String) (s : ShareState) : ResolveResult :=
  match s.shareLinks.find? (fun l => l.token == token) with
  | none => .notFound
  | some link =>
    if link.isActive then
      match s.shows.find? (fun r => r.id == link.showId) with
      | none => .notFound
      | some row => .rendered row
    else
      .notFound

end ShareLinks

namespace ShowSettlement

/-- Helper: a validated input computes to the reference result. -/
theorem handleCalculate_ok_of_valid (i : SettlementInput)
    (h : specValidationPasses i) :
    handleCalculate i = .ok (specReferenceResult i) := by
  obtain ⟨h1, h2, h3, h4, h5⟩ := h
  have hA : ¬(i.ticketPrice ≤ 0 ∨ i.ticketsSold ≤ 0) := by
    push_neg
    exact ⟨h1, h2⟩
  have hB : ¬(i.dealType = DealType.guarantee ∧ i.guarantee ≤ 0) := by
    rintro ⟨hd, hg⟩
    exact absurd (h3 hd) (not_lt.mpr hg)
  have hC : ¬(i.dealType = DealType.percentage ∧ i.percentage ≤ 0) := by
    rintro ⟨hd, hp⟩
    exact absurd (h4 hd) (not_lt.mpr hp)
  have hD : ¬(i.dealType = DealType.guarantee_vs_percentage ∧
      (i.guarantee ≤ 0 ∨ i.percentage ≤ 0)) := by
    rintro ⟨hd, hgp⟩
    rcases hgp with hg | hp
    · exact absurd (h5 hd).1 (not_lt.mpr hg)
    · exact absurd (h5 hd).2 (not_lt.mpr hp)
  rw [handleCalculate, if_neg hA, if_neg hB, if_neg hC, if_neg hD]
  rfl

/-- C1: for every SettlementInput that passes validation, compute returns
the result given by the reference formulas: grossRevenue = ticketPrice *
ticketsSold; taxAmount = grossRevenue * (taxRate / 100); netProfit =
grossRevenue - taxAmount - totalExpenses; artistPayout = guarantee /
max(0, netProfit * percentage/100) / the max of both, by deal type;
venuePayout = netProfit - artistPayout; totalExpenses echoed. -/
theorem C1_compute_matches_reference (i : SettlementInput)
    (h : specValidationPasses i) :
    handleCalculate i = .ok (specReferenceResult i) :=
  handleCalculate_ok_of_valid i h

/-- C1 witness: spec scenario 1 passes validation and computes the
reference result. -/
theorem C1_compute_matches_reference_witness :
    specValidationPasses ⟨DealType.guarantee, 25, 200, 10, 500, 1000, 0⟩ ∧
    handleCalculate ⟨DealType.guarantee, 25, 200, 10, 500, 1000, 0⟩ =
      .ok (specReferenceResult
        ⟨DealType.guarantee, 25, 200, 10, 500, 1000, 0⟩) := by
  have hv : specValidationPasses
      ⟨DealType.guarantee, 25, 200, 10, 500, 1000, 0⟩ := by
    refine ⟨by norm_num, by norm_num, fun _ => by norm_num, ?_, ?_⟩ <;>
      rintro ⟨⟩
  exact ⟨hv, C1_compute_matches_reference _ hv⟩

/-- C2: compute signals a ValidationError and produces no result exactly
when ticketPrice ≤ 0 or ticketsSold ≤ 0, or the field required by the
chosen deal type is not positive; the checks run in source order and the
first failing check determines the error. -/
theorem C2_validation_order (i : SettlementInput) :
    errorOf (handleCalculate i) = specFirstFailingCheck i := by
  rw [handleCalculate, specFirstFailingCheck]
  split_ifs <;> rfl

/-- C4: for every SettlementInput that passes validation (equivalently,
on which compute succeeds), venuePayout + artistPayout = netProfit
exactly and artistPayout ≥ 0, under every deal type. -/
theorem C4_payout_invariants (i : SettlementInput) (r : SettlementResult)
    (h : handleCalculate i = .ok r) :
    r.venuePayout + r.artistPayout = r.netProfit ∧ 0 ≤ r.artistPayout := by
  rw [handleCalculate] at h
  split_ifs at h with h1 h2 h3 h4
  rw [Except.ok.injEq] at h
  subst h
  refine ⟨by ring, ?_⟩
  rcases hd : i.dealType
  · have hg : 0 < i.guarantee := by
      by_contra hle
      exact h2 ⟨hd, le_of_not_lt hle⟩
    simpa [hd] using le_of_lt hg
  · simp [hd]
  · have hg : 0 < i.guarantee := by
      by_contra hle
      exact h4 ⟨hd, Or.inl (le_of_not_lt hle)⟩
    simp only [hd]
    exact le_trans (le_of_lt hg) (le_max_left i.guarantee _)

/-- C4 witness: at spec scenario 1 the invariants hold for the computed
result. -/
theorem C4_payout_invariants_witness :
    (⟨5000, 500, 500, 4000, 1000, 3000⟩ :
        SettlementResult).venuePayout +
      (⟨5000, 500, 500, 4000, 1000, 3000⟩ :
        SettlementResult).artistPayout =
      (⟨5000, 500, 500, 4000, 1000, 3000⟩ :
        SettlementResult).netProfit ∧
    (0 : ℚ) ≤ (⟨5000, 500, 500, 4000, 1000, 3000⟩ :
        SettlementResult).artistPayout :=
  C4_payout_invariants ⟨DealType.guarantee, 25, 200, 10, 500, 1000, 0⟩ _
    (by norm_num [handleCalculate]; rfl)

/-- C10: compute never validates taxRate or totalExpenses — any input
whose ticket fields and deal-required fields are positive produces a
result, whatever taxRate (even > 100) and totalExpenses (even negative,
or unparseable) are; and an unparseable numeric field parses to 0. -/
theorem C10_tax_and_expenses_unvalidated (fd : FormData)
    (h1 : 0 < parseNumber fd.ticketPrice)
    (h2 : 0 < parseNumber fd.ticketsSold)
    (h3 : fd.dealType = DealType.guarantee → 0 < parseNumber fd.guarantee)
    (h4 : fd.dealType = DealType.percentage → 0 < parseNumber fd.percentage)
    (h5 : fd.dealType = DealType.guarantee_vs_percentage →
      0 < parseNumber fd.guarantee ∧ 0 < parseNumber fd.percentage) :
    (∃ r, handleCalculateForm fd = .ok r) ∧ parseNumber none = 0 := by
  refine ⟨⟨_, handleCalculate_ok_of_valid _ ⟨h1, h2, h3, h4, h5⟩⟩, rfl⟩

/-- C10 witness: a form with taxRate 150 (> 100), totalExpenses −50 and
an unparseable percentage field still computes a result. -/
theorem C10_tax_and_expenses_unvalidated_witness :
    (∃ r, handleCalculateForm
        ⟨DealType.guarantee, some 10, some 5, some 150, some (-50),
          some 100, none⟩ = .ok r) ∧ parseNumber none = 0 :=
  C10_tax_and_expenses_unvalidated
    ⟨DealType.guarantee, some 10, some 5, some 150, some (-50), some 100,
      none⟩
    (by norm_num [parseNumber]) (by norm_num [parseNumber])
    (fun _ => by norm_num [parseNumber]) (by rintro ⟨⟩) (by rintro ⟨⟩)

end ShowSettlement

namespace Entitlements

/-- C3 counterexample: at an entitlement row with status "active" and
expiresAt equal to now, the code grants access while the claim's strict
`expiresAt > now` condition denies it — the claimed equivalence fails at
this concrete input. -/
theorem C3_access_counterexample :
    hasProAccess (some ⟨"active", some 5⟩) 5 = true ∧
    specAccessStrict (some ⟨"active", some 5⟩) 5 = false := by
  constructor <;> rfl

/-- C3 amended: hasAccess(userId) returns true if and only if an
entitlement row exists with status = active and (expiresAt absent or
expiresAt ≥ now); an absent row yields no access, and the stored status
value "expired" plays no role beyond not being "active". -/
theorem C3_access_amended (row : Option EntitlementRow) (now : Int) :
    hasProAccess row now = specAccessNonStrict row now := by
  rcases row with _ | ⟨status, expiresAt⟩
  · rfl
  · rcases expiresAt with _ | t
    · by_cases h : status = "active" <;>
        simp [hasProAccess, specAccessNonStrict, h]
    · by_cases h : status = "active" <;>
        by_cases ht : t < now <;>
        simp [hasProAccess, specAccessNonStrict, h, ht, not_lt.mp,
          Int.not_le.mpr]

end Entitlements

namespace StripeWebhook

/-- Helper: with both writes succeeding, deleting a live subscription
produces exactly the two table updates of the source handler. -/
theorem handleSubscriptionDeleted_noFail_eq (subId : String)
    (s : WebhookState) (row : SubscriptionRow)
    (hrow : s.subscriptions.find? (fun r => r.subscriptionId == subId) =
      some row)
    (hnc : (row.status == "canceled") = false) :
    handleSubscriptionDeleted ⟨false, false⟩ subId s =
      ({ subscriptions := s.subscriptions.map (fun r =>
            if r.subscriptionId == subId then { r with status := "canceled" }
            else r)
         entitlements := s.entitlements.map (fun e =>
            if e.userId == row.userId && e.source == "stripe" then
              { e with status := "inactive" }
            else e) }, []) := by
  unfold handleSubscriptionDeleted
  rw [hrow]
  simp [hnc]

/-- Helper: `find?` by subscription id commutes with a map that preserves
the subscription id. -/
theorem find?_map_of_preserves_subscriptionId (l : List SubscriptionRow)
    (subId : String) (g : SubscriptionRow → SubscriptionRow)
    (hg : ∀ r, (g r).subscriptionId = r.subscriptionId) :
    (l.map g).find? (fun r => r.subscriptionId == subId) =
      (l.find? (fun r => r.subscriptionId == subId)).map g := by
  induction l with
  | nil => rfl
  | cons a t ih =>
    simp only [List.map_cons, List.find?_cons]
    by_cases ha : (a.subscriptionId == subId) = true
    · simp [hg, ha]
    · simp [hg, ha, ih]

/-- C5: delivering the subscription-deleted webhook twice for the same
subscription id: after the first application (writes succeeding) the
mirror row's status is canceled and the user's stripe-sourced entitlement
rows are inactive, and a second application leaves the state unchanged
(early return on the already-canceled status), whatever the write
failure flags. -/
theorem C5_subscription_deleted_idempotent (s : WebhookState)
    (subId : String) (row : SubscriptionRow) (e : EntitlementRecord)
    (s1 : WebhookState)
    (hrow : s.subscriptions.find? (fun r => r.subscriptionId == subId) =
      some row)
    (hnc : (row.status == "canceled") = false)
    (he : e ∈ s.entitlements) (heu : e.userId = row.userId)
    (hes : e.source = "stripe")
    (hs1 : s1 = (handleSubscriptionDeleted ⟨false, false⟩ subId s).1) :
    s1.subscriptions.find? (fun r => r.subscriptionId == subId) =
      some { row with status := "canceled" } ∧
    (∀ e' ∈ s1.entitlements, e'.userId = row.userId →
      e'.source = "stripe" → e'.status = "inactive") ∧
    (∃ e' ∈ s1.entitlements, e'.userId = row.userId ∧
      e'.source = "stripe" ∧ e'.status = "inactive") ∧
    (∀ f, (handleSubscriptionDeleted f subId s1).1 = s1) := by
  have hp := List.find?_some hrow
  rw [handleSubscriptionDeleted_noFail_eq subId s row hrow hnc] at hs1
  subst hs1
  have hfind : (s.subscriptions.map (fun r =>
        if r.subscriptionId == subId then { r with status := "canceled" }
        else r)).find? (fun r => r.subscriptionId == subId) =
      some { row with status := "canceled" } := by
    rw [find?_map_of_preserves_subscriptionId]
    · rw [hrow]
      rw [beq_iff_eq] at hp
      simp [hp]
    · intro r
      by_cases hr : (r.subscriptionId == subId) = true <;> simp [hr]
  refine ⟨hfind, ?_, ?_, ?_⟩
  · intro e' he' hu hs'
    rcases List.mem_map.mp he' with ⟨a, _, rfl⟩
    by_cases hc : (a.userId == row.userId && a.source == "stripe") = true
    · simp [hc]
    · rw [if_neg (by simpa using hc)] at hu hs' ⊢
      simp [hu, hs'] at hc
  · refine ⟨if e.userId == row.userId && e.source == "stripe" then
        { e with status := "inactive" } else e,
      List.mem_map_of_mem _ he, ?_⟩
    rw [if_pos (by simp [heu, hes])]
    exact ⟨heu, hes, rfl⟩
  · intro f
    unfold handleSubscriptionDeleted
    rw [hfind]
    rfl

/-- C5 witness: on a one-subscription, one-entitlement store, the second
delivery of subscription-deleted for "sub_1" is a no-op (for any write
failure flags) and the first delivery leaves the mirror canceled. -/
theorem C5_subscription_deleted_idempotent_witness :
    (handleSubscriptionDeleted ⟨true, true⟩ "sub_1"
        ((handleSubscriptionDeleted ⟨false, false⟩ "sub_1"
          ⟨[⟨"user_1", "cus_1", "sub_1", "price_1", "active", none, none,
              false⟩],
            [⟨"user_1", "stripe", "active", none⟩]⟩).1)).1 =
      (handleSubscriptionDeleted ⟨false, false⟩ "sub_1"
          ⟨[⟨"user_1", "cus_1", "sub_1", "price_1", "active", none, none,
              false⟩],
            [⟨"user_1", "stripe", "active", none⟩]⟩).1 ∧
    ((handleSubscriptionDeleted ⟨false, false⟩ "sub_1"
          ⟨[⟨"user_1", "cus_1", "sub_1", "price_1", "active", none, none,
              false⟩],
            [⟨"user_1", "stripe", "active", none⟩]⟩).1).subscriptions.find?
        (fun r => r.subscriptionId == "sub_1") =
      some ⟨"user_1", "cus_1", "sub_1", "price_1", "canceled", none, none,
        false⟩ := by
  have h := C5_subscription_deleted_idempotent
    ⟨[⟨"user_1", "cus_1", "sub_1", "price_1", "active", none, none,
        false⟩],
      [⟨"user_1", "stripe", "active", none⟩]⟩
    "sub_1"
    ⟨"user_1", "cus_1", "sub_1", "price_1", "active", none, none, false⟩
    ⟨"user_1", "stripe", "active", none⟩
    _ (by rfl) (by rfl) (by simp) rfl rfl rfl
  exact ⟨h.2.2.2 ⟨true, true⟩, h.1⟩

/-- C6: whenever the signature verifies, the endpoint answers 200
"received" for every event and every combination of internal write
failures; in particular an entitlement-write failure inside the
subscription-deleted handler is logged while the caller is still told
success. -/
theorem C6_received_regardless_of_handler (secret sig body : String)
    (verify : String → String → String → Bool) (event : StripeEvent)
    (f : WriteFailures) (s : WebhookState)
    (hv : verify body sig secret = true) :
    (POST (some secret) verify body (some sig) event f s).1 =
      ⟨200, "received"⟩ ∧
    (∀ subId row,
      s.subscriptions.find? (fun r => r.subscriptionId == subId) =
        some row →
      (row.status == "canceled") = false →
      "Error syncing entitlement cancellation" ∈
        (POST (some secret) verify body (some sig)
          (StripeEvent.subscriptionDeleted subId) ⟨false, true⟩
          s).2.2) := by
  constructor
  · simp only [POST, hv]
    rfl
  · intro subId row hrow hnc
    simp only [POST, hv, if_true, handleEvent, handleSubscriptionDeleted]
    rw [hrow]
    simp [hnc]

/-- C6 witness: with a verifying oracle and a live subscription row, the
response is 200 "received" and the entitlement-write failure of the
deleted-handler is logged. -/
theorem C6_received_regardless_of_handler_witness :
    (POST (some "whsec_1") (fun _ _ _ => true) "payload" (some "sig_1")
        (StripeEvent.subscriptionDeleted "sub_1") ⟨false, true⟩
        ⟨[⟨"user_1", "cus_1", "sub_1", "price_1", "active", none, none,
            false⟩], []⟩).1 = ⟨200, "received"⟩ ∧
    "Error syncing entitlement cancellation" ∈
      (POST (some "whsec_1") (fun _ _ _ => true) "payload" (some "sig_1")
        (StripeEvent.subscriptionDeleted "sub_1") ⟨false, true⟩
        ⟨[⟨"user_1", "cus_1", "sub_1", "price_1", "active", none, none,
            false⟩], []⟩).2.2 := by
  have h := C6_received_regardless_of_handler "whsec_1" "sig_1" "payload"
    (fun _ _ _ => true) (StripeEvent.subscriptionDeleted "sub_1")
    ⟨false, true⟩
    ⟨[⟨"user_1", "cus_1", "sub_1", "price_1", "active", none, none,
        false⟩], []⟩
    rfl
  exact ⟨h.1, h.2 "sub_1"
    ⟨"user_1", "cus_1", "sub_1", "price_1", "active", none, none, false⟩
    (by rfl) (by rfl)⟩

/-- C7: a request with a missing signature, or one whose signature fails
verification, is rejected with status 400 before any handler runs: the
stored state is returned unchanged and no handler log is produced. -/
theorem C7_invalid_signature_rejected (secret body : String)
    (verify : String → String → String → Bool) (event : StripeEvent)
    (f : WriteFailures) (s : WebhookState) :
    POST (some secret) verify body none event f s =
      (⟨400, "No signature provided"⟩, s, []) ∧
    (∀ sig, verify body sig secret = false →
      POST (some secret) verify body (some sig) event f s =
        (⟨400, "Invalid signature"⟩, s,
          ["Webhook signature verification failed"])) := by
  refine ⟨rfl, fun sig hv => ?_⟩
  simp only [POST, hv]
  rfl

/-- C7 witness: with a rejecting oracle, both the missing-signature and
the invalid-signature request leave a concrete store untouched and
answer 400. -/
theorem C7_invalid_signature_rejected_witness :
    POST (some "whsec_1") (fun _ _ _ => false) "payload" none
        (StripeEvent.subscriptionDeleted "sub_1") ⟨false, false⟩
        ⟨[⟨"user_1", "cus_1", "sub_1", "price_1", "active", none, none,
            false⟩], []⟩ =
      (⟨400, "No signature provided"⟩,
        ⟨[⟨"user_1", "cus_1", "sub_1", "price_1", "active", none, none,
            false⟩], []⟩, []) ∧
    POST (some "whsec_1") (fun _ _ _ => false) "payload" (some "sig_1")
        (StripeEvent.subscriptionDeleted "sub_1") ⟨false, false⟩
        ⟨[⟨"user_1", "cus_1", "sub_1", "price_1", "active", none, none,
            false⟩], []⟩ =
      (⟨400, "Invalid signature"⟩,
        ⟨[⟨"user_1", "cus_1", "sub_1", "price_1", "active", none, none,
            false⟩], []⟩,
        ["Webhook signature verification failed"]) := by
  have h := C7_invalid_signature_rejected "whsec_1" "payload"
    (fun _ _ _ => false) (StripeEvent.subscriptionDeleted "sub_1")
    ⟨false, false⟩
    ⟨[⟨"user_1", "cus_1", "sub_1", "price_1", "active", none, none,
        false⟩], []⟩
  exact ⟨h.1, h.2 "sig_1" rfl⟩

end StripeWebhook

namespace ShareLinks

/-- Helper: every hex digit below 16 encodes to a hex character. -/
theorem hexDigitChar_isHex : ∀ n < 16, isHexChar (hexDigitChar n) = true := by
  decide

/-- Helper: the hex encoding of a byte list has two characters per byte. -/
theorem hexEncode_length (bs : List Nat) :
    (hexEncode bs).length = 2 * bs.length := by
  induction bs with
  | nil => rfl
  | cons b t ih =>
    have h : (hexEncode (b :: t)).length = (hexEncode t).length + 2 := rfl
    rw [h, ih]
    simp [List.length_cons]
    ring

/-- Helper: every character of the hex encoding of genuine bytes is a
hexadecimal character. -/
theorem hexEncode_mem_isHex (bs : List Nat) (hb : ∀ b ∈ bs, b < 256) :
    ∀ c ∈ (hexEncode bs).data, isHexChar c = true := by
  induction bs with
  | nil => simp [hexEncode]
  | cons b t ih =>
    intro c hc
    rw [show (hexEncode (b :: t)).data =
      byteToHex b ++ (hexEncode t).data from rfl] at hc
    rcases List.mem_append.mp hc with h1 | h2
    · have hb256 : b < 256 := hb b (List.mem_cons_self b t)
      have hdiv : b / 16 < 16 :=
        (Nat.div_lt_iff_lt_mul (by norm_num)).mpr hb256
      simp only [byteToHex, List.mem_cons, List.not_mem_nil, or_false]
        at h1
      rcases h1 with rfl | rfl
      · exact hexDigitChar_isHex _ hdiv
      · exact hexDigitChar_isHex _ (Nat.mod_lt _ (by norm_num))
    · exact ih (fun x hx => hb x (List.mem_cons_of_mem _ hx)) c h2

/-- C8: for a show owned by the caller, createOrGetLink returns the
existing link's token and active flag unchanged and writes nothing; when
no link exists it persists a link with the freshly hex-encoded token and
isActive = true, returns it, and for 32 genuine random bytes the token
has 64 hexadecimal characters. -/
theorem C8_create_share_link_idempotent (uid sid : String)
    (randomness : List Nat) (insertFails : Bool) (s : ShareState)
    (srow : ShowRow)
    (hshow : s.shows.find? (fun r => r.id == sid && r.userId == uid) =
      some srow) :
    (∀ link, s.shareLinks.find? (fun l => l.showId == sid) = some link →
      createShareLink (some uid) (some sid) randomness insertFails s =
        (.existingLink link.token link.isActive, s)) ∧
    (s.shareLinks.find? (fun l => l.showId == sid) = none →
      insertFails = false →
      randomness.length = 32 → (∀ b ∈ randomness, b < 256) →
      createShareLink (some uid) (some sid) randomness insertFails s =
        (.created (hexEncode randomness),
          { s with shareLinks := s.shareLinks ++
              [⟨sid, hexEncode randomness, true⟩] }) ∧
      (hexEncode randomness).length = 64 ∧
      (∀ c ∈ (hexEncode randomness).data, isHexChar c = true)) := by
  constructor
  · intro link hlink
    simp only [createShareLink, hshow, hlink]
  · intro hnone hif hlen hb
    subst hif
    refine ⟨by simp only [createShareLink, hshow, hnone]; rfl, ?_,
      hexEncode_mem_isHex randomness hb⟩
    rw [hexEncode_length, hlen]

/-- C8 witness: on a store owning "show_1" with no link yet, 32 bytes of
0xab yield a created link whose token is their hex encoding, 64
characters long. -/
theorem C8_create_share_link_idempotent_witness :
    createShareLink (some "user_1") (some "show_1")
        (List.replicate 32 171) false
        ⟨[⟨"show_1", "user_1", "snapshot"⟩], []⟩ =
      (.created (hexEncode (List.replicate 32 171)),
        ⟨[⟨"show_1", "user_1", "snapshot"⟩],
          [⟨"show_1", hexEncode (List.replicate 32 171), true⟩]⟩) ∧
    (hexEncode (List.replicate 32 171)).length = 64 := by
  have h := (C8_create_share_link_idempotent "user_1" "show_1"
    (List.replicate 32 171) false
    ⟨[⟨"show_1", "user_1", "snapshot"⟩], []⟩
    ⟨"show_1", "user_1", "snapshot"⟩ (by rfl)).2
    (by rfl) rfl (by rfl) (by decide)
  exact ⟨h.1, h.2.1⟩

/-- C9: a token with no ShareLink row and a token whose ShareLink row is
inactive produce the same externally observable NotFound result. -/
theorem C9_inactive_token_indistinguishable (t1 t2 : String)
    (s : ShareState) (l : ShareLinkRow)
    (h1 : s.shareLinks.find? (fun x => x.token == t1) = none)
    (h2 : s.shareLinks.find? (fun x => x.token == t2) = some l)
    (h3 : l.isActive = false) :
    SharedSettlementPage t1 s = ResolveResult.notFound ∧
    SharedSettlementPage t2 s = ResolveResult.notFound ∧
    SharedSettlementPage t1 s = SharedSettlementPage t2 s := by
  have e1 : SharedSettlementPage t1 s = ResolveResult.notFound := by
    simp only [SharedSettlementPage, h1]
  have e2 : SharedSettlementPage t2 s = ResolveResult.notFound := by
    simp only [SharedSettlementPage, h2, h3]
    rfl
  exact ⟨e1, e2, e1.trans e2.symm⟩

/-- C9 witness: on a store holding only the deactivated link "tok_b", the
unknown token "tok_a" and the deactivated token "tok_b" both resolve to
NotFound. -/
theorem C9_inactive_token_indistinguishable_witness :
    SharedSettlementPage "tok_a" ⟨[], [⟨"show_1", "tok_b", false⟩]⟩ =
      ResolveResult.notFound ∧
    SharedSettlementPage "tok_b" ⟨[], [⟨"show_1", "tok_b", false⟩]⟩ =
      ResolveResult.notFound ∧
    SharedSettlementPage "tok_a" ⟨[], [⟨"show_1", "tok_b", false⟩]⟩ =
      SharedSettlementPage "tok_b" ⟨[], [⟨"show_1", "tok_b", false⟩]⟩ :=
  C9_inactive_token_indistinguishable "tok_a" "tok_b"
    ⟨[], [⟨"show_1", "tok_b", false⟩]⟩ ⟨"show_1", "tok_b", false⟩
    (by rfl) (by rfl) rfl

end ShareLinks
